import Mathlib

/-!
Verification of the `session` package (SMTP session core, Go).

Strings are modelled as `List Char` (the inputs handled by the code are
ASCII, where Go's byte indexing coincides with character indexing).
Each definition is a direct translation of the corresponding Go function
from the source file; stateful methods become explicit state passing.
-/

namespace Maillennia

/-- Whitespace test used by Go's `strings.TrimSpace` (ASCII subset). -/
def goIsSpace (c : Char) : Bool :=
  c = ' ' || c = '\t' || c = '\n' || c = '\x0b' || c = '\x0c' || c = '\r'

/-- Go `strings.TrimSpace`: drop leading and trailing whitespace. -/
def trimSpace (l : List Char) : List Char :=
  ((l.dropWhile goIsSpace).reverse.dropWhile goIsSpace).reverse

/-- Go `strings.ToUpper` (ASCII). -/
def strToUpper (l : List Char) : List Char := l.map Char.toUpper

/-- Go `strings.HasSuffix(s, "\r\n")`. -/
def hasSuffixCRLF (l : List Char) : Bool := List.isSuffixOf ['\r', '\n'] l

/-- Go `strings.Index(s, ":")`: index of the first colon, `none` when absent
(Go returns -1). -/
def firstIdx : List Char → Char → Option Nat
  | [], _ => none
  | c :: cs, t => if c = t then some 0 else (firstIdx cs t).map (· + 1)

/-- Go `strings.Split(s, " ")` (single-space separator, empty fields kept). -/
def splitSpace : List Char → List (List Char)
  | [] => [[]]
  | c :: rest =>
    if c = ' ' then [] :: splitSpace rest
    else
      match splitSpace rest with
      | [] => [[c]]
      | f :: fs => (c :: f) :: fs

/-- `command.Verb`: extract the verb from a raw line (source lines 378-397). -/
def Verb (c : List Char) : List Char :=
  if c = ['\r', '\n'] then ['\r', '\n']
  else
    let verb := trimSpace c
    if verb.length = 4 then strToUpper verb
    else if verb.length > 4 then
      match firstIdx verb ':' with
      | some i =>
        if 0 < i then strToUpper (verb.take (i + 1))
        else strToUpper ((splitSpace verb).headD [])
      | none => strToUpper ((splitSpace verb).headD [])
    else []

/-- `command.Arg`: the remainder of the line after the verb, trimmed
(source lines 400-408). -/
def Arg (c : List Char) : List Char :=
  if c = ['\r', '\n'] then []
  else trimSpace (c.drop (Verb c).length)

/-! ### Regular expressions

A small regex AST with Brzozowski-derivative matching models the four
`regexp` patterns of the source.  `RE.matches r s` decides whether `r`
matches the whole of `s`; `matchContains` models `Regexp.MatchString`
(a match anywhere in the string, i.e. a full match of `.*r.*` over an
unrestricted alphabet); `FindString` models `Regexp.FindString` as the
leftmost match (longest at that position, which agrees with Go's
leftmost-first greedy semantics on the patterns below for the inputs
considered in this development). -/

inductive RE
  | emp
  | eps
  | cls (p : Char → Bool)
  | cat (r1 r2 : RE)
  | alt (r1 r2 : RE)
  | star (r : RE)

def RE.nullable : RE → Bool
  | .emp => false
  | .eps => true
  | .cls _ => false
  | .cat r1 r2 => r1.nullable && r2.nullable
  | .alt r1 r2 => r1.nullable || r2.nullable
  | .star _ => true

def RE.isEmp : RE → Bool
  | .emp => true
  | _ => false

def RE.isEps : RE → Bool
  | .eps => true
  | _ => false

/-- Smart concatenation (keeps derivatives small). -/
def RE.scat (r1 r2 : RE) : RE :=
  if r1.isEmp || r2.isEmp then .emp
  else if r1.isEps then r2
  else if r2.isEps then r1
  else .cat r1 r2

/-- Smart alternation (keeps derivatives small). -/
def RE.salt (r1 r2 : RE) : RE :=
  if r1.isEmp then r2
  else if r2.isEmp then r1
  else .alt r1 r2

def RE.deriv : RE → Char → RE
  | .emp, _ => .emp
  | .eps, _ => .emp
  | .cls p, c => if p c then .eps else .emp
  | .cat r1 r2, c =>
    if r1.nullable then RE.salt (RE.scat (r1.deriv c) r2) (r2.deriv c)
    else RE.scat (r1.deriv c) r2
  | .alt r1 r2, c => RE.salt (r1.deriv c) (r2.deriv c)
  | .star r, c => RE.scat (r.deriv c) (.star r)

/-- Full-string match. -/
def RE.matches (r : RE) (s : List Char) : Bool :=
  (s.foldl RE.deriv r).nullable

def RE.plus (r : RE) : RE := .cat r (.star r)

def RE.opt (r : RE) : RE := .alt .eps r

/-- Any character (used to embed an unanchored search as a full match). -/
def RE.anyc : RE := .cls (fun _ => true)

/-- Go `Regexp.MatchString`: the pattern matches somewhere in the string. -/
def matchContains (r : RE) (s : List Char) : Bool :=
  RE.matches (.cat (.star RE.anyc) (.cat r (.star RE.anyc))) s

/-- Length of the longest prefix of the remaining input matched by `r`
(absolute position; `n` counts the characters already consumed). -/
def longestFrom : RE → List Char → Nat → Option Nat
  | r, [], n => if r.nullable then some n else none
  | r, c :: rest, n =>
    match longestFrom (r.deriv c) rest (n + 1) with
    | some m => some m
    | none => if r.nullable then some n else none

/-- Leftmost match of `r` in `s` (longest at the leftmost start). -/
def reFind (r : RE) : List Char → Option (List Char)
  | [] => if r.nullable then some [] else none
  | s@(_ :: rest) =>
    match longestFrom r s 0 with
    | some n => some (s.take n)
    | none => reFind r rest

/-- Go `Regexp.FindString` (empty string when there is no match). -/
def FindString (r : RE) (s : List Char) : List Char := (reFind r s).getD []

/-- Character class `[a-zA-Z0-9._-]` of the source patterns. -/
def clsAddr : RE := .cls (fun c => c.isAlpha || c.isDigit || c = '.' || c = '_' || c = '-')

/-- Character class `[a-zA-Z]`. -/
def clsAlpha : RE := .cls Char.isAlpha

/-- Single literal character. -/
def chr (c : Char) : RE := .cls (fun x => x = c)

/-- `[a-zA-Z]{2,}` (top-level domain label). -/
def rTop : RE := .cat clsAlpha (RE.plus clsAlpha)

/-- `(?:[a-zA-Z0-9._-]+\.)+[a-zA-Z]{2,}` (domain part). -/
def rDomain : RE := .cat (RE.plus (.cat (RE.plus clsAddr) (chr '.'))) rTop

/-- `rMailAddr = [a-zA-Z0-9._-]+@(?:[a-zA-Z0-9._-]+\.)+[a-zA-Z]{2,}` (source line 321). -/
def rMailAddr : RE := .cat (RE.plus clsAddr) (.cat (chr '@') rDomain)

/-- `rMailArg = <rMailAddr>` (source line 323). -/
def rMailArg : RE := .cat (chr '<') (.cat rMailAddr (chr '>'))

/-- `rArgSyntax = <(.+)>` (source line 320; `.` excludes the newline in Go). -/
def rArgSyntax : RE :=
  .cat (chr '<') (.cat (RE.plus (.cls (fun c => c ≠ '\n'))) (chr '>'))

/-- `rRcptArg = <(?:@domain,?)*:?local@domain>` (source line 322). -/
def rRcptArg : RE :=
  .cat (chr '<')
    (.cat (.star (.cat (chr '@') (.cat rDomain (RE.opt (chr ',')))))
      (.cat (RE.opt (chr ':'))
        (.cat (RE.plus clsAddr) (.cat (chr '@') (.cat rDomain (chr '>'))))))

/-! ### Errors and replies -/

/-- The `error` values of the source (lines 327-342). -/
inductive SErr
  | ehloFirstErr
  | badSeqErr
  | syntaxErr
  | invalidCommandArgErr
  | invalidRcptEmailErr
  | emailNotExistErr
deriving DecidableEq

/-- The message carried by each error value, exactly as in the source. -/
def SErr.message : SErr → String
  | .ehloFirstErr => "503 5.5.1 HELO/EHLO first"
  | .badSeqErr => "503 5.5.1 Bad sequence of commands"
  | .syntaxErr => "555 5.5.2 Syntax error"
  | .invalidCommandArgErr => "501 5.5.4 Invalid command arguments"
  | .invalidRcptEmailErr =>
    "553-5.1.2 Invalid recipient email address.\r\n553-5.1.2 Please Check for any spelling errors\r\n553-5.1.2 make sure before & after recipient email address\r\n553 5.1.2 doesn\x27t contain periods, spaces, or other punctuation."
  | .emailNotExistErr =>
    "550-5.1.1 Recipient email address doesn\x27t exist.\r\n550-5.1.1 Please Check for any spelling errors\r\n550-5.1.1 make sure before & after recipient email address\r\n550 5.1.1 doesn\x27t contain periods, spaces, or other punctuation."

/-- Classification from the spec taxonomy: `BadSequence` is "verb used before
its precondition verbs", which covers both the greeting-required reply and the
bad-sequence reply (both use code `503 5.5.1`). -/
def SErr.isBadSequence : SErr → Bool
  | .ehloFirstErr => true
  | .badSeqErr => true
  | _ => false

def REPLY_220 : String := "220 <host> Maillennia ESMTP ready"
def REPLY_221 : String := "221 2.0.0 Bye"
def REPLY_250 : String := "250 2.0.0 OK"
def REPLY_250_RCPT : String := "250 2.1.5 OK"
def REPLY_354 : String := "354 Go ahead"
def REPLY_421 : String := "421 4.4.2 Bad connection"
def REPLY_453 : String := "453 5.3.2 System not accepting network message"
def REPLY_503 : String := "503 5.5.1 Invalid command"

/-! ### Per-command validators (source lines 411-487) -/

/-- `command.ValidLine`. -/
def ValidLine (c : List Char) : Bool × Option SErr :=
  if c = [] then (false, some .syntaxErr)
  else if !hasSuffixCRLF c then (false, some .syntaxErr)
  else (true, none)

/-- `command.ValidHello`. -/
def ValidHello (c : List Char) : Bool × Option SErr :=
  let args := splitSpace (Arg c)
  if Arg c = [] ∨ args.length > 1 then (false, some .invalidCommandArgErr)
  else (true, none)

/-- `command.ValidMail`. -/
def ValidMail (c : List Char) : Bool × Option SErr :=
  if Arg c = [] then (false, some .syntaxErr)
  else if !matchContains rMailArg (Arg c) then (false, some .invalidCommandArgErr)
  else (true, none)

/-- `command.ValidRcpt`. -/
def ValidRcpt (c : List Char) : Bool × Option SErr :=
  if Arg c = [] ∨ !matchContains rArgSyntax (Arg c) then (false, some .syntaxErr)
  else if !matchContains rRcptArg (Arg c) then (false, some .invalidRcptEmailErr)
  else (true, none)

/-- `command.ValidData`. -/
def ValidData (c : List Char) : Bool × Option SErr :=
  if Arg c ≠ [] then (false, some .syntaxErr)
  else (true, none)

/-- `command.ValidQuit`. -/
def ValidQuit (c : List Char) : Bool × Option SErr :=
  if Verb c = ("QUIT").data then
    if Arg c ≠ [] then (false, some .invalidCommandArgErr)
    else (true, none)
  else (true, none)

/-- `command.EmailAddress`. -/
def EmailAddress (c : List Char) : List Char := FindString rMailAddr (Arg c)

/-! ### Session state (source lines 489-659) -/

/-- `Envelope` (source lines 491-495). -/
structure Envelope where
  OriginatorAddress : List Char
  RecipientAddress : List (List Char)
  Extension : List Char
deriving DecidableEq

/-- `NewEnvelope`. -/
def NewEnvelope : Envelope := ⟨[], [], []⟩

/-- `SessionValidity` (source lines 502-506). -/
structure SessionValidity where
  HeloFirst : Bool
  MailFirst : Bool
  RcptFirst : Bool
deriving DecidableEq

/-- The validity flags of a freshly created session (source lines 525-529). -/
def freshValidity : SessionValidity := ⟨false, false, false⟩

/-- `Session.Valid` (source lines 572-659).  The Go method mutates
`s.Validity` and returns `(bool, error)`; here the updated flags are
returned alongside the result. -/
def sessionValid (v : SessionValidity) (c : List Char) :
    SessionValidity × Bool × Option SErr :=
  match (ValidLine c).2 with
  | some e => (v, false, some e)
  | none =>
    if Verb c = ("EHLO").data ∨ Verb c = ("HELO").data then
      match (ValidHello c).2 with
      | some e => (v, false, some e)
      | none => ({ v with HeloFirst := true }, true, none)
    else if Verb c = ("MAIL FROM:").data then
      if !v.HeloFirst then (v, false, some .ehloFirstErr)
      else
        match (ValidMail c).2 with
        | some e => (v, false, some e)
        | none => ({ v with MailFirst := true }, true, none)
    else if Verb c = ("RCPT TO:").data then
      if !v.HeloFirst then (v, false, some .ehloFirstErr)
      else if !v.MailFirst then (v, false, some .badSeqErr)
      else
        match (ValidRcpt c).2 with
        | some e => (v, false, some e)
        | none => ({ v with RcptFirst := true }, true, none)
    else if Verb c = ("DATA").data then
      if !v.HeloFirst then (v, false, some .ehloFirstErr)
      else if !v.MailFirst || !v.RcptFirst then (v, false, some .badSeqErr)
      else
        match (ValidData c).2 with
        | some e => (v, false, some e)
        | none => (v, true, none)
    else if Verb c = ("QUIT").data then
      match (ValidQuit c).2 with
      | some e => (v, false, some e)
      | none => (v, true, none)
    else (v, true, none)

/-! ### The serve loop (source lines 679-785)

`Session.Serve` interacts with the transport; the embedding makes that
interaction explicit:
* each loop iteration consumes an `IterIn`: the result of
  `Reader.ReadString('\n')` (`ok line`, or `rerr data` for a read error —
  `bufio` returns the bytes read so far, which contain no newline),
  plus whether the shutdown channel delivers at this iteration's
  `CheckChanClosed`;
* each `Transmit`/`TransmitErr` consults `ServeCfg.writeOk` at a running
  write counter to decide whether the `Flush` succeeds;
* observable actions become `Ev` events: a successful reply, a failed
  write, a `log.Println` (local only, nothing on the wire), and the two
  effects of the deferred `Session.Close` (`Wg.Done`, `Conn.Close`).
-/

/-- Write-outcome oracle: `writeOk n` tells whether the `n`-th flush succeeds. -/
structure ServeCfg where
  writeOk : Nat → Bool

/-- Result of `Reader.ReadString('\n')` for one iteration. -/
inductive ReadResult
  | ok (line : List Char)
  | rerr (pdata : List Char)
deriving DecidableEq

/-- Environment input for one loop iteration. -/
structure IterIn where
  rres : ReadResult
  shutdown : Bool
deriving DecidableEq

/-- Observable events of a session run. -/
inductive Ev
  | sent (s : String)
  | writeFail (s : String)
  | logged (s : String)
  | wgDone
  | connClosed
deriving DecidableEq

/-- Per-session mutable state threaded through the loop. -/
structure SessState where
  wn : Nat
  validity : SessionValidity
  envl : Envelope
deriving DecidableEq

/-- `Reply.Transmit` / `Reply.TransmitErr`: write the message, flush; the
event records the outcome and the `Bool` is `true` when the flush succeeded. -/
def transmit (cfg : ServeCfg) (wn : Nat) (msg : String) : Ev × Bool :=
  if cfg.writeOk wn then (.sent msg, true) else (.writeFail msg, false)

/-- Outcome of one loop iteration: continue with a new state, or the Go
function returns. -/
inductive StepOut
  | cont (st : SessState)
  | exit
deriving DecidableEq

/-- Reply with `msg` and continue; a flush failure makes `Serve` return. -/
def replyCont (cfg : ServeCfg) (st : SessState) (msg : String) : List Ev × StepOut :=
  let t := transmit cfg st.wn msg
  if t.2 then ([t.1], .cont { st with wn := st.wn + 1 }) else ([t.1], .exit)

/-- The `switch c.Verb()` dispatch (source lines 726-782); `st.validity`
already holds the flags updated by `Session.Valid`. -/
def dispatchVerb (cfg : ServeCfg) (st : SessState) (line : List Char) :
    List Ev × StepOut :=
  if Verb line = ("HELO").data then replyCont cfg st REPLY_250
  else if Verb line = ("EHLO").data then replyCont cfg st REPLY_250
  else if Verb line = ("MAIL FROM:").data then
    replyCont cfg
      { st with envl := { st.envl with OriginatorAddress := EmailAddress line } }
      REPLY_250
  else if Verb line = ("RCPT TO:").data then
    replyCont cfg
      { st with envl :=
          { st.envl with
            RecipientAddress := st.envl.RecipientAddress ++ [EmailAddress line] } }
      REPLY_250_RCPT
  else if Verb line = ("DATA").data then replyCont cfg st REPLY_354
  else if Verb line = ['\r', '\n'] then ([.logged ("enter")], .cont st)
  else if Verb line = ("RSET").data then ([.logged (String.mk (Verb line))], .cont st)
  else if Verb line = ("QUIT").data then ([(transmit cfg st.wn REPLY_221).1], .exit)
  else if Verb line = ("NOOP").data then ([.logged (String.mk (Verb line))], .cont st)
  else if Verb line = ("HELP").data then ([.logged (String.mk (Verb line))], .cont st)
  else if Verb line = ("EXPN").data then ([.logged (String.mk (Verb line))], .cont st)
  else if Verb line = ("VRFY").data then ([.logged (String.mk (Verb line))], .cont st)
  else replyCont cfg st REPLY_503

/-- Validity check and dispatch for one line (source lines 713-782). -/
def handleLine (cfg : ServeCfg) (st : SessState) (line : List Char) :
    List Ev × StepOut :=
  match sessionValid st.validity line with
  | (v2, false, some e) =>
    let t := transmit cfg st.wn (SErr.message e)
    if t.2 then ([t.1], .cont ⟨st.wn + 1, v2, st.envl⟩) else ([t.1], .exit)
  | (v2, _, _) => dispatchVerb cfg ⟨st.wn, v2, st.envl⟩ line

/-- `CheckChanClosed` followed by line handling (source lines 707-782):
on shutdown, reply 453 (whether or not the flush succeeds) and return. -/
def checkAndHandle (cfg : ServeCfg) (st : SessState) (shutdown : Bool)
    (line : List Char) : List Ev × StepOut :=
  if shutdown then ([(transmit cfg st.wn REPLY_453).1], .exit)
  else handleLine cfg st line

/-- One iteration of the `for` loop (source lines 696-784).  On a read
error the code transmits 453 (a flush failure returns) and then falls
through to process the partial line as a command — the double handling
noted in the spec. -/
def serveStep (cfg : ServeCfg) (st : SessState) (it : IterIn) :
    List Ev × StepOut :=
  match it.rres with
  | .ok line => checkAndHandle cfg st it.shutdown line
  | .rerr p =>
    let t := transmit cfg st.wn REPLY_453
    if t.2 then
      let r := checkAndHandle cfg { st with wn := st.wn + 1 } it.shutdown p
      (t.1 :: r.1, r.2)
    else ([t.1], .exit)

/-- Run the loop over the provided iterations.  The `Bool` is `true` when
the Go function returned within them; `false` means the session is still
running and awaiting more input. -/
def serveLoop (cfg : ServeCfg) : SessState → List IterIn → List Ev × Bool
  | _, [] => ([], false)
  | st, it :: rest =>
    match serveStep cfg st it with
    | (evs, .exit) => (evs, true)
    | (evs, .cont st2) =>
      (evs ++ (serveLoop cfg st2 rest).1, (serveLoop cfg st2 rest).2)

/-- The two effects of `Session.Close` (source lines 543-552): `Wg.Done()`
then `Conn.Close()`; run by `defer` on every return path of `Serve`. -/
def closeEvs : List Ev := [Ev.wgDone, Ev.connClosed]

/-- `Session.Serve` (source lines 679-785): greeting, loop, deferred close.
The `Bool` is `true` when the function returned (and hence closed). -/
def Serve (cfg : ServeCfg) (its : List IterIn) : List Ev × Bool :=
  if (transmit cfg 0 REPLY_220).2 then
    if (serveLoop cfg ⟨1, freshValidity, NewEnvelope⟩ its).2 then
      ((transmit cfg 0 REPLY_220).1 ::
        (serveLoop cfg ⟨1, freshValidity, NewEnvelope⟩ its).1 ++ closeEvs, true)
    else
      ((transmit cfg 0 REPLY_220).1 ::
        (serveLoop cfg ⟨1, freshValidity, NewEnvelope⟩ its).1, false)
  else ((transmit cfg 0 REPLY_220).1 :: closeEvs, true)

/-- Validity states reachable from a fresh session by processing commands
through `Session.Valid`. -/
inductive ReachableValidity : SessionValidity → Prop
  | init : ReachableValidity freshValidity
  | step {v : SessionValidity} (c : List Char) :
      ReachableValidity v → ReachableValidity (sessionValid v c).1

/-! ## Supporting lemmas -/

lemma splitSpace_ne_nil : ∀ l : List Char, splitSpace l ≠ [] := by
  intro l
  induction l with
  | nil => simp [splitSpace]
  | cons c rest ih =>
    unfold splitSpace
    split
    · simp
    · split <;> simp

lemma splitSpace_headD : ∀ l : List Char,
    (splitSpace l).headD [] = l.takeWhile (fun c => c != ' ') := by
  intro l
  induction l with
  | nil => rfl
  | cons c rest ih =>
    unfold splitSpace
    by_cases hc : c = ' '
    · subst hc
      simp [List.takeWhile_cons]
    · rw [if_neg hc]
      cases h : splitSpace rest with
      | nil => exact absurd h (splitSpace_ne_nil rest)
      | cons f fs =>
        have hf : f = rest.takeWhile (fun c => c != ' ') := by
          rw [← ih, h]; rfl
        simp [List.takeWhile_cons, hc, hf]

lemma crlf_newline_mem (c : List Char) (h : hasSuffixCRLF c = true) : '\n' ∈ c := by
  unfold hasSuffixCRLF at h
  have hs : ['\r', '\n'] <:+ c := by
    rwa [List.isSuffixOf_iff_suffix] at h
  rcases hs with ⟨t, ht⟩
  subst ht
  simp

lemma validLine_none_of_crlf (c : List Char) (h : hasSuffixCRLF c = true) :
    (ValidLine c).2 = none := by
  unfold ValidLine
  have hne : c ≠ [] := by
    intro hc
    subst hc
    exact absurd h (by decide)
  rw [if_neg hne, if_neg (by simp [h])]

lemma validLine_syntax_of_no_newline (c : List Char) (h : '\n' ∉ c) :
    (ValidLine c).2 = some SErr.syntaxErr := by
  unfold ValidLine
  by_cases hc : c = []
  · rw [if_pos hc]
  · rw [if_neg hc]
    have hcrlf : hasSuffixCRLF c = false := by
      cases hs : hasSuffixCRLF c
      · rfl
      · exact absurd (crlf_newline_mem c hs) h
    rw [if_pos (by simp [hcrlf])]

lemma sessionValid_line_err (v : SessionValidity) (c : List Char) (e : SErr)
    (h : (ValidLine c).2 = some e) : sessionValid v c = (v, false, some e) := by
  unfold sessionValid
  rw [h]

lemma sessionValid_mail_reject (v : SessionValidity) (c : List Char)
    (hh : v.HeloFirst = false) (hv : Verb c = ("MAIL FROM:").data)
    (hs : hasSuffixCRLF c = true) :
    sessionValid v c = (v, false, some SErr.ehloFirstErr) := by
  unfold sessionValid
  rw [validLine_none_of_crlf c hs, hv, if_neg (by decide), if_pos rfl, hh]
  rfl

lemma sessionValid_rcpt_reject (v : SessionValidity) (c : List Char)
    (hh : v.HeloFirst = false) (hv : Verb c = ("RCPT TO:").data)
    (hs : hasSuffixCRLF c = true) :
    sessionValid v c = (v, false, some SErr.ehloFirstErr) := by
  unfold sessionValid
  rw [validLine_none_of_crlf c hs, hv, if_neg (by decide), if_neg (by decide),
    if_pos rfl, hh]
  rfl

lemma sessionValid_fallthrough (v : SessionValidity) (c : List Char)
    (hline : (ValidLine c).2 = none)
    (h1 : ¬(Verb c = ("EHLO").data ∨ Verb c = ("HELO").data))
    (h2 : Verb c ≠ ("MAIL FROM:").data) (h3 : Verb c ≠ ("RCPT TO:").data)
    (h4 : Verb c ≠ ("DATA").data) (h5 : Verb c ≠ ("QUIT").data) :
    sessionValid v c = (v, true, none) := by
  unfold sessionValid
  rw [hline, if_neg h1, if_neg h2, if_neg h3, if_neg h4, if_neg h5]

lemma sessionValid_mail_mono (v : SessionValidity) (c : List Char)
    (h : (sessionValid v c).1.MailFirst = true) :
    v.MailFirst = true ∨ v.HeloFirst = true := by
  unfold sessionValid at h
  repeat' split at h
  all_goals
    first
      | exact Or.inl h
      | exact Or.inl (by simpa using h)
      | exact Or.inr (by simp_all)

lemma sessionValid_rcpt_mono (v : SessionValidity) (c : List Char)
    (h : (sessionValid v c).1.RcptFirst = true) :
    v.RcptFirst = true ∨ v.MailFirst = true := by
  unfold sessionValid at h
  repeat' split at h
  all_goals
    first
      | exact Or.inl h
      | exact Or.inl (by simpa using h)
      | exact Or.inr (by simp_all)

lemma sessionValid_helo_preserved (v : SessionValidity) (c : List Char)
    (hx : v.HeloFirst = true) : (sessionValid v c).1.HeloFirst = true := by
  unfold sessionValid
  repeat' split
  all_goals (first | exact hx | simp)

lemma sessionValid_mail_preserved (v : SessionValidity) (c : List Char)
    (hx : v.MailFirst = true) : (sessionValid v c).1.MailFirst = true := by
  unfold sessionValid
  repeat' split
  all_goals (first | exact hx | simp)

lemma sessionValid_data_gate (v : SessionValidity) (c : List Char)
    (h : (sessionValid v c).2.1 = true) (hv : Verb c = ("DATA").data) :
    v.MailFirst = true ∧ v.RcptFirst = true := by
  unfold sessionValid at h
  rw [hv] at h
  split at h
  · simp at h
  · rw [if_neg (by decide), if_neg (by decide), if_neg (by decide), if_pos rfl] at h
    split at h
    · simp at h
    · split at h
      · simp at h
      · rename_i hseq
        simp at hseq
        exact hseq

lemma sessionValid_chain (v : SessionValidity) (c : List Char)
    (h1 : v.RcptFirst = true → v.MailFirst = true)
    (h2 : v.MailFirst = true → v.HeloFirst = true) :
    ((sessionValid v c).1.RcptFirst = true → (sessionValid v c).1.MailFirst = true) ∧
    ((sessionValid v c).1.MailFirst = true → (sessionValid v c).1.HeloFirst = true) := by
  constructor
  · intro hr
    rcases sessionValid_rcpt_mono v c hr with hv | hv
    · exact sessionValid_mail_preserved v c (h1 hv)
    · exact sessionValid_mail_preserved v c hv
  · intro hm
    rcases sessionValid_mail_mono v c hm with hv | hv
    · exact sessionValid_helo_preserved v c (h2 hv)
    · exact sessionValid_helo_preserved v c hv


/-! ### Serve-step equations -/

lemma serveStep_ok_noshut (cfg : ServeCfg) (st : SessState) (line : List Char) :
    serveStep cfg st ⟨.ok line, false⟩ = handleLine cfg st line := by
  unfold serveStep checkAndHandle
  rfl

lemma handleLine_err_ok (cfg : ServeCfg) (st : SessState) (line : List Char)
    (v2 : SessionValidity) (e : SErr)
    (hsv : sessionValid st.validity line = (v2, false, some e))
    (hw : cfg.writeOk st.wn = true) :
    handleLine cfg st line =
      ([Ev.sent (SErr.message e)], .cont ⟨st.wn + 1, v2, st.envl⟩) := by
  unfold handleLine
  rw [hsv]
  unfold transmit
  rw [hw]
  rfl

lemma handleLine_valid (cfg : ServeCfg) (st : SessState) (line : List Char)
    (v2 : SessionValidity)
    (hsv : sessionValid st.validity line = (v2, true, none)) :
    handleLine cfg st line = dispatchVerb cfg ⟨st.wn, v2, st.envl⟩ line := by
  unfold handleLine
  rw [hsv]

lemma dispatchVerb_rset (cfg : ServeCfg) (st : SessState) (line : List Char)
    (hv : Verb line = ("RSET").data) :
    dispatchVerb cfg st line = ([Ev.logged ("RSET")], .cont st) := by
  unfold dispatchVerb
  rw [hv]
  rfl

lemma serveStep_rerr (cfg : ServeCfg) (st : SessState) (p : List Char)
    (hw : cfg.writeOk st.wn = true) :
    serveStep cfg st ⟨.rerr p, false⟩ =
      ((Ev.sent REPLY_453) ::
        (checkAndHandle cfg { st with wn := st.wn + 1 } false p).1,
       (checkAndHandle cfg { st with wn := st.wn + 1 } false p).2) := by
  unfold serveStep transmit
  rw [hw]
  rfl

lemma checkAndHandle_noshut (cfg : ServeCfg) (st : SessState) (line : List Char) :
    checkAndHandle cfg st false line = handleLine cfg st line := by
  unfold checkAndHandle
  rfl

/-! ### No step of the loop performs the close effects -/

lemma transmit_fst_not_close (cfg : ServeCfg) (n : Nat) (m : String) :
    (transmit cfg n m).1 ≠ Ev.wgDone ∧ (transmit cfg n m).1 ≠ Ev.connClosed := by
  unfold transmit
  split <;> simp

lemma replyCont_not_close (cfg : ServeCfg) (st : SessState) (m : String) :
    ∀ e ∈ (replyCont cfg st m).1, e ≠ Ev.wgDone ∧ e ≠ Ev.connClosed := by
  intro e he
  unfold replyCont at he
  have hev := transmit_fst_not_close cfg st.wn m
  rcases ht : transmit cfg st.wn m with ⟨ev, ok⟩
  rw [ht] at he hev
  cases ok <;> simp_all

lemma dispatchVerb_not_close (cfg : ServeCfg) (st : SessState) (line : List Char) :
    ∀ e ∈ (dispatchVerb cfg st line).1, e ≠ Ev.wgDone ∧ e ≠ Ev.connClosed := by
  intro e he
  unfold dispatchVerb at he
  by_cases h1 : Verb line = ("HELO").data
  · rw [if_pos h1] at he
    exact replyCont_not_close _ _ _ e he
  rw [if_neg h1] at he
  by_cases h2 : Verb line = ("EHLO").data
  · rw [if_pos h2] at he
    exact replyCont_not_close _ _ _ e he
  rw [if_neg h2] at he
  by_cases h3 : Verb line = ("MAIL FROM:").data
  · rw [if_pos h3] at he
    exact replyCont_not_close _ _ _ e he
  rw [if_neg h3] at he
  by_cases h4 : Verb line = ("RCPT TO:").data
  · rw [if_pos h4] at he
    exact replyCont_not_close _ _ _ e he
  rw [if_neg h4] at he
  by_cases h5 : Verb line = ("DATA").data
  · rw [if_pos h5] at he
    exact replyCont_not_close _ _ _ e he
  rw [if_neg h5] at he
  by_cases h6 : Verb line = ['\r', '\n']
  · rw [if_pos h6] at he
    simp at he
    subst he
    simp
  rw [if_neg h6] at he
  by_cases h7 : Verb line = ("RSET").data
  · rw [if_pos h7] at he
    simp at he
    subst he
    simp
  rw [if_neg h7] at he
  by_cases h8 : Verb line = ("QUIT").data
  · rw [if_pos h8] at he
    simp at he
    subst he
    exact transmit_fst_not_close cfg st.wn REPLY_221
  rw [if_neg h8] at he
  by_cases h9 : Verb line = ("NOOP").data
  · rw [if_pos h9] at he
    simp at he
    subst he
    simp
  rw [if_neg h9] at he
  by_cases h10 : Verb line = ("HELP").data
  · rw [if_pos h10] at he
    simp at he
    subst he
    simp
  rw [if_neg h10] at he
  by_cases h11 : Verb line = ("EXPN").data
  · rw [if_pos h11] at he
    simp at he
    subst he
    simp
  rw [if_neg h11] at he
  by_cases h12 : Verb line = ("VRFY").data
  · rw [if_pos h12] at he
    simp at he
    subst he
    simp
  rw [if_neg h12] at he
  exact replyCont_not_close _ _ _ e he

lemma handleLine_not_close (cfg : ServeCfg) (st : SessState) (line : List Char) :
    ∀ e ∈ (handleLine cfg st line).1, e ≠ Ev.wgDone ∧ e ≠ Ev.connClosed := by
  intro e he
  unfold handleLine at he
  split at he
  · rename_i v2 err heq
    have hev := transmit_fst_not_close cfg st.wn (SErr.message err)
    rcases ht : transmit cfg st.wn (SErr.message err) with ⟨ev, ok⟩
    rw [ht] at he hev
    cases ok <;> simp_all
  · exact dispatchVerb_not_close _ _ _ e he

lemma checkAndHandle_not_close (cfg : ServeCfg) (st : SessState) (sh : Bool)
    (line : List Char) :
    ∀ e ∈ (checkAndHandle cfg st sh line).1, e ≠ Ev.wgDone ∧ e ≠ Ev.connClosed := by
  intro e he
  unfold checkAndHandle at he
  split at he
  · have hev := transmit_fst_not_close cfg st.wn REPLY_453
    simp_all
  · exact handleLine_not_close _ _ _ e he

lemma serveStep_not_close (cfg : ServeCfg) (st : SessState) (it : IterIn) :
    ∀ e ∈ (serveStep cfg st it).1, e ≠ Ev.wgDone ∧ e ≠ Ev.connClosed := by
  intro e he
  unfold serveStep at he
  split at he
  · exact checkAndHandle_not_close _ _ _ _ e he
  · have hev := transmit_fst_not_close cfg st.wn REPLY_453
    rcases ht : transmit cfg st.wn REPLY_453 with ⟨ev, ok⟩
    rw [ht] at he hev
    cases ok
    · simp_all
    · simp at he
      rcases he with rfl | hmem
      · exact hev
      · exact checkAndHandle_not_close _ _ _ _ e hmem

lemma serveLoop_not_close (cfg : ServeCfg) :
    ∀ (its : List IterIn) (st : SessState),
      ∀ e ∈ (serveLoop cfg st its).1, e ≠ Ev.wgDone ∧ e ≠ Ev.connClosed := by
  intro its
  induction its with
  | nil =>
    intro st e he
    simp [serveLoop] at he
  | cons it rest ih =>
    intro st e he
    unfold serveLoop at he
    split at he
    · rename_i evs heq
      exact serveStep_not_close cfg st it e (by rw [heq]; exact he)
    · rename_i evs st2 heq
      simp only [List.mem_append] at he
      rcases he with h1 | h2
      · exact serveStep_not_close cfg st it e (by rw [heq]; exact h1)
      · exact ih st2 e h2


lemma dispatchVerb_blank (cfg : ServeCfg) (st : SessState) (line : List Char)
    (hv : Verb line = ['\r', '\n']) :
    dispatchVerb cfg st line = ([Ev.logged ("enter")], .cont st) := by
  unfold dispatchVerb
  rw [hv]
  rfl

lemma dispatchVerb_noop (cfg : ServeCfg) (st : SessState) (line : List Char)
    (hv : Verb line = ("NOOP").data) :
    dispatchVerb cfg st line = ([Ev.logged ("NOOP")], .cont st) := by
  unfold dispatchVerb
  rw [hv]
  rfl

lemma dispatchVerb_help (cfg : ServeCfg) (st : SessState) (line : List Char)
    (hv : Verb line = ("HELP").data) :
    dispatchVerb cfg st line = ([Ev.logged ("HELP")], .cont st) := by
  unfold dispatchVerb
  rw [hv]
  rfl

lemma dispatchVerb_expn (cfg : ServeCfg) (st : SessState) (line : List Char)
    (hv : Verb line = ("EXPN").data) :
    dispatchVerb cfg st line = ([Ev.logged ("EXPN")], .cont st) := by
  unfold dispatchVerb
  rw [hv]
  rfl

lemma dispatchVerb_vrfy (cfg : ServeCfg) (st : SessState) (line : List Char)
    (hv : Verb line = ("VRFY").data) :
    dispatchVerb cfg st line = ([Ev.logged ("VRFY")], .cont st) := by
  unfold dispatchVerb
  rw [hv]
  rfl

/-! ## The claims -/

/-- Claim C1: the sequencing flags satisfy the strict precondition chain as an
invariant of every reachable session state.  `Session.Valid` never sets
`MailFirst` while `HeloFirst` is false (a MAIL FROM: line there is rejected
with the greeting-required error), never sets `RcptFirst` while `MailFirst` is
false, and never accepts DATA unless `MailFirst` and `RcptFirst` both hold;
hence every validity state reachable from a fresh session satisfies
`RcptFirst → MailFirst → HeloFirst`. -/
theorem claim1_flag_precondition_chain :
    (∀ (v : SessionValidity) (c : List Char),
        (sessionValid v c).1.MailFirst = true →
        v.MailFirst = true ∨ v.HeloFirst = true) ∧
    (∀ (v : SessionValidity) (c : List Char),
        (sessionValid v c).1.RcptFirst = true →
        v.RcptFirst = true ∨ v.MailFirst = true) ∧
    (∀ (v : SessionValidity) (c : List Char), v.HeloFirst = false →
        Verb c = ("MAIL FROM:").data → hasSuffixCRLF c = true →
        sessionValid v c = (v, false, some SErr.ehloFirstErr)) ∧
    (∀ (v : SessionValidity) (c : List Char), Verb c = ("DATA").data →
        (sessionValid v c).2.1 = true →
        v.MailFirst = true ∧ v.RcptFirst = true) ∧
    (∀ v : SessionValidity, ReachableValidity v →
        (v.RcptFirst = true → v.MailFirst = true) ∧
        (v.MailFirst = true → v.HeloFirst = true)) := by
  refine ⟨sessionValid_mail_mono, sessionValid_rcpt_mono, sessionValid_mail_reject,
    ?_, ?_⟩
  · intro v c hv h
    exact sessionValid_data_gate v c h hv
  · intro v hr
    induction hr with
    | init =>
      exact ⟨fun h => by simp [freshValidity] at h,
        fun h => by simp [freshValidity] at h⟩
    | step c hv ih => exact sessionValid_chain _ c ih.1 ih.2

/-- Concrete instance of C1: a MAIL FROM: line on a fresh session is rejected
with the greeting-required error and the flags stay untouched. -/
theorem claim1_witness :
    sessionValid ⟨false, false, false⟩ (("MAIL FROM:<a@b.com>\r\n").data) =
      (⟨false, false, false⟩, false, some SErr.ehloFirstErr) :=
  claim1_flag_precondition_chain.2.2.1 ⟨false, false, false⟩
    (("MAIL FROM:<a@b.com>\r\n").data) rfl (by decide) (by decide)

/-- Claim C2: on a fresh session, the five lines EHLO host, MAIL FROM:<a@b.com>,
RCPT TO:<c@d.com>, DATA, QUIT (all CRLF-terminated, no shutdown, all writes
succeeding) produce, after the 220 greeting, the replies 250, 250, 250 (the
recipient variant), 354, and 221 in order, and then the serve loop returns and
the connection is closed. -/
theorem claim2_scenario_transcript :
    Serve ⟨fun _ => true⟩
      [⟨.ok (("EHLO host\r\n").data), false⟩,
       ⟨.ok (("MAIL FROM:<a@b.com>\r\n").data), false⟩,
       ⟨.ok (("RCPT TO:<c@d.com>\r\n").data), false⟩,
       ⟨.ok (("DATA\r\n").data), false⟩,
       ⟨.ok (("QUIT\r\n").data), false⟩] =
    ([Ev.sent REPLY_220, Ev.sent REPLY_250, Ev.sent REPLY_250,
      Ev.sent REPLY_250_RCPT, Ev.sent REPLY_354, Ev.sent REPLY_221,
      Ev.wgDone, Ev.connClosed], true) := by decide

/-- Counterexample to C3 as stated: the line `RCPT TO:<c@d.com>\n` (newline but
no carriage return) is an RCPT TO: line by `Verb`, yet as the first command of
a fresh session `Session.Valid` rejects it with the syntax error, which is not
a bad-sequence error. -/
theorem claim3_counterexample :
    Verb (("RCPT TO:<c@d.com>\n").data) = ("RCPT TO:").data ∧
    sessionValid freshValidity (("RCPT TO:<c@d.com>\n").data) =
      (freshValidity, false, some SErr.syntaxErr) ∧
    SErr.isBadSequence SErr.syntaxErr = false := by decide

/-- Claim C3 (amended: restricted to CRLF-terminated lines): every
CRLF-terminated RCPT TO: line, whatever its argument, submitted as the very
first command of a fresh session fails `Session.Valid` with a bad-sequence
class error (the greeting-required reply), that error is the reply
transmitted, and the envelope is not mutated. -/
theorem claim3_rcpt_first_bad_sequence :
    ∀ (l : List Char), hasSuffixCRLF l = true → Verb l = ("RCPT TO:").data →
      (sessionValid freshValidity l = (freshValidity, false, some SErr.ehloFirstErr) ∧
        SErr.isBadSequence SErr.ehloFirstErr = true) ∧
      (∀ (cfg : ServeCfg) (st : SessState), st.validity = freshValidity →
        cfg.writeOk st.wn = true →
        serveStep cfg st ⟨.ok l, false⟩ =
          ([Ev.sent (SErr.message SErr.ehloFirstErr)],
           .cont ⟨st.wn + 1, freshValidity, st.envl⟩)) := by
  intro l hs hv
  have hsv : sessionValid freshValidity l =
      (freshValidity, false, some SErr.ehloFirstErr) :=
    sessionValid_rcpt_reject freshValidity l rfl hv hs
  refine ⟨⟨hsv, rfl⟩, ?_⟩
  intro cfg st hstv hw
  rw [serveStep_ok_noshut,
    handleLine_err_ok cfg st l freshValidity SErr.ehloFirstErr
      (by rw [hstv]; exact hsv) hw]

/-- Concrete instance of amended C3 at `RCPT TO:<c@d.com>\r\n`. -/
theorem claim3_witness :
    hasSuffixCRLF (("RCPT TO:<c@d.com>\r\n").data) = true ∧
    (sessionValid freshValidity (("RCPT TO:<c@d.com>\r\n").data) =
        (freshValidity, false, some SErr.ehloFirstErr) ∧
      SErr.isBadSequence SErr.ehloFirstErr = true) ∧
    serveStep ⟨fun _ => true⟩ ⟨1, freshValidity, NewEnvelope⟩
        ⟨.ok (("RCPT TO:<c@d.com>\r\n").data), false⟩ =
      ([Ev.sent (SErr.message SErr.ehloFirstErr)],
       .cont ⟨2, freshValidity, NewEnvelope⟩) := by
  have h := claim3_rcpt_first_bad_sequence (("RCPT TO:<c@d.com>\r\n").data)
    (by decide) (by decide)
  exact ⟨by decide, h.1, h.2 ⟨fun _ => true⟩ ⟨1, freshValidity, NewEnvelope⟩ rfl rfl⟩

/-- Counterexample to C4 as stated: for `MAIL FROM:abc\r\n` the angle-bracket
envelope is absent from the (nonempty) argument, yet `ValidMail` fails with the
invalid-arguments error, not the syntax error. -/
theorem claim4_counterexample :
    Verb (("MAIL FROM:abc\r\n").data) = ("MAIL FROM:").data ∧
    Arg (("MAIL FROM:abc\r\n").data) ≠ [] ∧
    matchContains rArgSyntax (Arg (("MAIL FROM:abc\r\n").data)) = false ∧
    ValidMail (("MAIL FROM:abc\r\n").data) =
      (false, some SErr.invalidCommandArgErr) ∧
    SErr.invalidCommandArgErr ≠ SErr.syntaxErr := by decide

/-- Claim C4 (amended): for every CRLF-terminated MAIL FROM: line, `ValidMail`
fails with the syntax error exactly when the argument is empty, fails with the
invalid-arguments error exactly when the argument is nonempty but contains no
angle-bracketed address matching the reverse-path pattern, and succeeds exactly
when the argument contains such a bracketed address. -/
theorem claim4_mail_error_split :
    ∀ (l : List Char), hasSuffixCRLF l = true → Verb l = ("MAIL FROM:").data →
      (ValidMail l = (false, some SErr.syntaxErr) ↔ Arg l = []) ∧
      (ValidMail l = (false, some SErr.invalidCommandArgErr) ↔
        (Arg l ≠ [] ∧ matchContains rMailArg (Arg l) = false)) ∧
      (ValidMail l = (true, none) ↔
        (Arg l ≠ [] ∧ matchContains rMailArg (Arg l) = true)) := by
  intro l _ _
  unfold ValidMail
  by_cases ha : Arg l = []
  · simp [ha]
  · cases hm : matchContains rMailArg (Arg l) <;> simp [ha, hm]

/-- Concrete instance of amended C4 at `MAIL FROM:<a@b.com>\r\n`. -/
theorem claim4_witness :
    ValidMail (("MAIL FROM:<a@b.com>\r\n").data) = (true, none) ↔
      (Arg (("MAIL FROM:<a@b.com>\r\n").data) ≠ [] ∧
        matchContains rMailArg (Arg (("MAIL FROM:<a@b.com>\r\n").data)) = true) :=
  (claim4_mail_error_split (("MAIL FROM:<a@b.com>\r\n").data)
    (by decide) (by decide)).2.2

/-- Claim C5: when the per-iteration read fails (bufio returns the data read so
far, which contains no newline) and the shutdown signal is not raised, the
session transmits the 453 retry reply and the loop continues — it then
re-processes the partial line, whose missing terminator draws the syntax-error
reply; the read error alone never terminates the session, and within this
scenario only a write/flush failure does. -/
theorem claim5_read_error_retry :
    ∀ (cfg : ServeCfg) (st : SessState) (p : List Char), '\n' ∉ p →
      (cfg.writeOk st.wn = true → cfg.writeOk (st.wn + 1) = true →
        serveStep cfg st ⟨.rerr p, false⟩ =
          ([Ev.sent REPLY_453, Ev.sent (SErr.message SErr.syntaxErr)],
           .cont ⟨st.wn + 1 + 1, st.validity, st.envl⟩)) ∧
      ((serveStep cfg st ⟨.rerr p, false⟩).2 = .exit →
        cfg.writeOk st.wn = false ∨ cfg.writeOk (st.wn + 1) = false) := by
  intro cfg st p hnl
  have hsv : sessionValid st.validity p = (st.validity, false, some SErr.syntaxErr) :=
    sessionValid_line_err _ _ _ (validLine_syntax_of_no_newline p hnl)
  have hmain : cfg.writeOk st.wn = true → cfg.writeOk (st.wn + 1) = true →
      serveStep cfg st ⟨.rerr p, false⟩ =
        ([Ev.sent REPLY_453, Ev.sent (SErr.message SErr.syntaxErr)],
         .cont ⟨st.wn + 1 + 1, st.validity, st.envl⟩) := by
    intro hw1 hw2
    rw [serveStep_rerr cfg st p hw1, checkAndHandle_noshut,
      handleLine_err_ok cfg { st with wn := st.wn + 1 } p st.validity
        SErr.syntaxErr hsv hw2]
  refine ⟨hmain, ?_⟩
  intro hexit
  by_cases hw1 : cfg.writeOk st.wn = true
  · by_cases hw2 : cfg.writeOk (st.wn + 1) = true
    · rw [hmain hw1 hw2] at hexit
      simp at hexit
    · exact Or.inr (by simpa using hw2)
  · exact Or.inl (by simpa using hw1)

/-- Concrete instance of C5: a failed read returning `QU` draws the 453 retry
reply followed by the syntax-error reply, and the loop continues. -/
theorem claim5_witness :
    serveStep ⟨fun _ => true⟩ ⟨1, freshValidity, NewEnvelope⟩
        ⟨.rerr (("QU").data), false⟩ =
      ([Ev.sent REPLY_453, Ev.sent (SErr.message SErr.syntaxErr)],
       .cont ⟨3, freshValidity, NewEnvelope⟩) :=
  (claim5_read_error_retry ⟨fun _ => true⟩ ⟨1, freshValidity, NewEnvelope⟩
    (("QU").data) (by decide)).1 rfl rfl

/-- Claim C6: whenever `Session.Serve` returns — on any exit path: QUIT
dispatched, greeting-send failure, a reply write/flush failure, or the
shutdown signal — the deferred `Session.Close` runs exactly once, decrementing
the completion tracker and closing the connection; while the loop is still
running neither effect has occurred. -/
theorem claim6_close_exactly_once :
    ∀ (cfg : ServeCfg) (its : List IterIn),
      ((Serve cfg its).2 = true →
        ((Serve cfg its).1.count Ev.wgDone = 1 ∧
         (Serve cfg its).1.count Ev.connClosed = 1)) ∧
      ((Serve cfg its).2 = false →
        ((Serve cfg its).1.count Ev.wgDone = 0 ∧
         (Serve cfg its).1.count Ev.connClosed = 0)) := by
  intro cfg its
  have hg := transmit_fst_not_close cfg 0 REPLY_220
  have hloop := serveLoop_not_close cfg its ⟨1, freshValidity, NewEnvelope⟩
  have hc1 : (serveLoop cfg ⟨1, freshValidity, NewEnvelope⟩ its).1.count Ev.wgDone = 0 :=
    List.count_eq_zero.mpr (fun hmem => (hloop _ hmem).1 rfl)
  have hc2 : (serveLoop cfg ⟨1, freshValidity, NewEnvelope⟩ its).1.count Ev.connClosed = 0 :=
    List.count_eq_zero.mpr (fun hmem => (hloop _ hmem).2 rfl)
  unfold Serve
  by_cases h1 : (transmit cfg 0 REPLY_220).2 = true
  · rw [if_pos h1]
    by_cases h2 : (serveLoop cfg ⟨1, freshValidity, NewEnvelope⟩ its).2 = true
    · rw [if_pos h2]
      refine ⟨fun _ => ⟨?_, ?_⟩, fun h => by simp at h⟩
      · simp [closeEvs, List.count_cons, List.count_append, hc1, Ne.symm hg.1]
      · simp [closeEvs, List.count_cons, List.count_append, hc2, Ne.symm hg.2]
    · rw [if_neg h2]
      refine ⟨fun h => by simp at h, fun _ => ⟨?_, ?_⟩⟩
      · simp [List.count_cons, hc1, Ne.symm hg.1]
      · simp [List.count_cons, hc2, Ne.symm hg.2]
  · rw [if_neg h1]
    refine ⟨fun _ => ⟨?_, ?_⟩, fun h => by simp at h⟩
    · simp [closeEvs, List.count_cons, Ne.symm hg.1]
    · simp [closeEvs, List.count_cons, Ne.symm hg.2]

/-- Concrete instance of C6: a session served a single QUIT terminates with the
tracker decremented and the connection closed exactly once. -/
theorem claim6_witness :
    (Serve ⟨fun _ => true⟩ [⟨.ok (("QUIT\r\n").data), false⟩]).2 = true ∧
    (Serve ⟨fun _ => true⟩ [⟨.ok (("QUIT\r\n").data), false⟩]).1.count Ev.wgDone = 1 ∧
    (Serve ⟨fun _ => true⟩ [⟨.ok (("QUIT\r\n").data), false⟩]).1.count Ev.connClosed = 1 := by
  have h := (claim6_close_exactly_once ⟨fun _ => true⟩
    [⟨.ok (("QUIT\r\n").data), false⟩]).1 (by decide)
  exact ⟨by decide, h.1, h.2⟩

/-- Claim C7: a valid CRLF-terminated RSET line with no argument passes
`Session.Valid` with no sequencing precondition in every validity state, and
its dispatch leaves the three flags, every envelope field, and the write
counter unchanged (it only logs locally). -/
theorem claim7_rset_no_op :
    ∀ (v : SessionValidity) (l : List Char), hasSuffixCRLF l = true →
      Verb l = ("RSET").data → Arg l = [] →
      sessionValid v l = (v, true, none) ∧
      (∀ (cfg : ServeCfg) (st : SessState), st.validity = v →
        serveStep cfg st ⟨.ok l, false⟩ = ([Ev.logged ("RSET")], .cont st)) := by
  intro v l hs hv _
  have hsv : sessionValid v l = (v, true, none) :=
    sessionValid_fallthrough v l (validLine_none_of_crlf l hs)
      (by rw [hv]; decide) (by rw [hv]; decide) (by rw [hv]; decide)
      (by rw [hv]; decide) (by rw [hv]; decide)
  refine ⟨hsv, ?_⟩
  intro cfg st hstv
  rw [serveStep_ok_noshut,
    handleLine_valid cfg st l v (by rw [hstv]; exact hsv),
    dispatchVerb_rset cfg _ l hv, ← hstv]

/-- Concrete instance of C7 at `RSET\r\n` in a greeted session. -/
theorem claim7_witness :
    sessionValid ⟨true, false, false⟩ (("RSET\r\n").data) =
      (⟨true, false, false⟩, true, none) ∧
    serveStep ⟨fun _ => true⟩ ⟨2, ⟨true, false, false⟩, NewEnvelope⟩
        ⟨.ok (("RSET\r\n").data), false⟩ =
      ([Ev.logged ("RSET")], .cont ⟨2, ⟨true, false, false⟩, NewEnvelope⟩) := by
  have h := claim7_rset_no_op ⟨true, false, false⟩ (("RSET\r\n").data)
    (by decide) (by decide) (by decide)
  exact ⟨h.1, h.2 ⟨fun _ => true⟩ ⟨2, ⟨true, false, false⟩, NewEnvelope⟩ rfl⟩

/-- Counterexample to C8 as stated: for `:abcd\r\n` the trimmed line is longer
than 4 and contains a colon, but because the colon is at index 0 `Verb` falls
through to the space-split branch and returns `:ABCD`, not the prefix up to the
colon; and for `AB\tCD EF\r\n` the no-colon branch returns the first
space-delimited token `AB\tCD` (the split is on the space character only), not
the first whitespace-delimited token `AB`. -/
theorem claim8_counterexample :
    (Verb ((":abcd\r\n").data) = (":ABCD").data ∧
      4 < (trimSpace ((":abcd\r\n").data)).length ∧
      firstIdx (trimSpace ((":abcd\r\n").data)) ':' = some 0 ∧
      strToUpper ((trimSpace ((":abcd\r\n").data)).take (0 + 1)) = (":").data ∧
      (":ABCD").data ≠ (":").data) ∧
    (Verb (("AB\tCD EF\r\n").data) = ("AB\tCD").data ∧
      strToUpper ((trimSpace (("AB\tCD EF\r\n").data)).takeWhile
        (fun c => !goIsSpace c)) = ("AB").data ∧
      ("AB\tCD").data ≠ ("AB").data) := by decide

/-- Claim C8 (amended): `Verb` returns the blank-line sentinel for the bare
terminator; the uppercased trimmed line when its length is exactly 4; for a
trimmed line longer than 4 with a colon at a positive index, the uppercased
prefix up to and including the colon; for a trimmed line longer than 4 with no
colon or a colon at index 0, the uppercased prefix up to the first space
character; and the empty verb otherwise. -/
theorem claim8_verb_characterization :
    ∀ (l : List Char),
      (l = ['\r', '\n'] → Verb l = ['\r', '\n']) ∧
      (l ≠ ['\r', '\n'] → (trimSpace l).length = 4 →
        Verb l = strToUpper (trimSpace l)) ∧
      (l ≠ ['\r', '\n'] → 4 < (trimSpace l).length →
        ∀ i, firstIdx (trimSpace l) ':' = some i → 0 < i →
          Verb l = strToUpper ((trimSpace l).take (i + 1))) ∧
      (l ≠ ['\r', '\n'] → 4 < (trimSpace l).length →
        (firstIdx (trimSpace l) ':' = none ∨ firstIdx (trimSpace l) ':' = some 0) →
        Verb l = strToUpper ((trimSpace l).takeWhile (fun c => c != ' '))) ∧
      (l ≠ ['\r', '\n'] → (trimSpace l).length < 4 → Verb l = []) := by
  intro l
  refine ⟨?_, ?_, ?_, ?_, ?_⟩
  · intro h
    simp only [Verb, if_pos h]
  · intro h h4
    simp only [Verb, if_neg h, if_pos h4]
  · intro h h4 i hi hpos
    have hne4 : (trimSpace l).length ≠ 4 := by omega
    simp only [Verb, if_neg h, if_neg hne4, if_pos h4, hi, if_pos hpos]
  · intro h h4 hcolon
    have hne4 : (trimSpace l).length ≠ 4 := by omega
    rcases hcolon with hc | hc
    · simp only [Verb, if_neg h, if_neg hne4, if_pos h4, hc, splitSpace_headD]
    · simp only [Verb, if_neg h, if_neg hne4, if_pos h4, hc,
        if_neg (Nat.lt_irrefl 0), splitSpace_headD]
  · intro h h4
    have hne4 : (trimSpace l).length ≠ 4 := by omega
    have hng : ¬(4 < (trimSpace l).length) := by omega
    simp only [Verb, if_neg h, if_neg hne4, if_neg hng]

/-- Concrete instance of amended C8: `EHLO host\r\n` takes the no-colon branch. -/
theorem claim8_witness :
    Verb (("EHLO host\r\n").data) =
      strToUpper ((trimSpace (("EHLO host\r\n").data)).takeWhile
        (fun c => c != ' ')) :=
  (claim8_verb_characterization (("EHLO host\r\n").data)).2.2.2.1
    (by decide) (by decide) (Or.inl (by decide))

/-- Claim C9: for `RCPT TO:<user@sub.example.com>\r\n`, recipient validation
succeeds and the extracted address round-trips to `user@sub.example.com`
exactly. -/
theorem claim9_rcpt_roundtrip :
    ValidRcpt (("RCPT TO:<user@sub.example.com>\r\n").data) = (true, none) ∧
    EmailAddress (("RCPT TO:<user@sub.example.com>\r\n").data) =
      ("user@sub.example.com").data := by decide

/-- Claim C10: a blank line (bare terminator) and every CRLF-terminated RSET,
NOOP, HELP, VRFY, or EXPN command transmit no reply at all — the dispatch only
logs locally — and the loop proceeds to the next read with the session state
unchanged. -/
theorem claim10_passthrough_silent :
    ∀ (l : List Char) (cfg : ServeCfg) (st : SessState),
      (l = ['\r', '\n'] ∨
        (hasSuffixCRLF l = true ∧
          (Verb l = ("RSET").data ∨ Verb l = ("NOOP").data ∨ Verb l = ("HELP").data ∨
            Verb l = ("VRFY").data ∨ Verb l = ("EXPN").data))) →
      ∃ m, serveStep cfg st ⟨.ok l, false⟩ = ([Ev.logged m], .cont st) := by
  intro l cfg st hl
  rcases hl with rfl | ⟨hs, hv5⟩
  · have hsv := sessionValid_fallthrough st.validity ['\r', '\n'] (by decide)
      (by decide) (by decide) (by decide) (by decide) (by decide)
    exact ⟨("enter"), by
      rw [serveStep_ok_noshut, handleLine_valid cfg st _ st.validity hsv,
        dispatchVerb_blank cfg _ _ (by decide)]⟩
  · have hline := validLine_none_of_crlf l hs
    rcases hv5 with hv | hv | hv | hv | hv
    all_goals
      have hsv := sessionValid_fallthrough st.validity l hline
        (by rw [hv]; decide) (by rw [hv]; decide) (by rw [hv]; decide)
        (by rw [hv]; decide) (by rw [hv]; decide)
    · exact ⟨("RSET"), by
        rw [serveStep_ok_noshut, handleLine_valid cfg st l st.validity hsv,
          dispatchVerb_rset cfg _ l hv]⟩
    · exact ⟨("NOOP"), by
        rw [serveStep_ok_noshut, handleLine_valid cfg st l st.validity hsv,
          dispatchVerb_noop cfg _ l hv]⟩
    · exact ⟨("HELP"), by
        rw [serveStep_ok_noshut, handleLine_valid cfg st l st.validity hsv,
          dispatchVerb_help cfg _ l hv]⟩
    · exact ⟨("VRFY"), by
        rw [serveStep_ok_noshut, handleLine_valid cfg st l st.validity hsv,
          dispatchVerb_vrfy cfg _ l hv]⟩
    · exact ⟨("EXPN"), by
        rw [serveStep_ok_noshut, handleLine_valid cfg st l st.validity hsv,
          dispatchVerb_expn cfg _ l hv]⟩

/-- Concrete instance of C10: `NOOP\r\n` produces only a local log entry, even
when every write would fail (nothing is written). -/
theorem claim10_witness :
    ∃ m, serveStep ⟨fun _ => false⟩ ⟨0, freshValidity, NewEnvelope⟩
        ⟨.ok (("NOOP\r\n").data), false⟩ =
      ([Ev.logged m], .cont ⟨0, freshValidity, NewEnvelope⟩) :=
  claim10_passthrough_silent (("NOOP\r\n").data) ⟨fun _ => false⟩
    ⟨0, freshValidity, NewEnvelope⟩
    (Or.inr ⟨by decide, Or.inr (Or.inl (by decide))⟩)

end Maillennia
